import Mathlib

/-!
Verification development for the AGBAC-Min repository (dual-subject token
protocol).  The definitions below are a shallow embedding of the Python
sources:

  * code/python/hybrid_sender.py        (HybridSender)
  * code/out_of_session_token_request.py (OutOfSessionTokenRequest)
  * code/in_session_token_request.py    (InSessionTokenRequest)
  * code/python/base_adapter.py         (BaseAdapter, TokenRequestError)
  * agents/python/adapters/auth0_adapter.py  (Auth0Adapter)
  * agents/python/adapters/entraid_adapter.py (EntraIDAdapter)

Python dictionaries with string values are embedded as association lists
with unique keys; dictionary lookup is first-match lookup.  Python
truthiness of an optional string (None and the empty string are falsy) is
the function truthy.  RSA key material is abstracted by a numeric key
identifier: a signature made with private key k verifies exactly under
public key k.  The PyJWT library call jwt.decode is embedded as jwtDecode,
with the order of checks taken from PyJWT (signature/algorithm first, then
exp, then aud); its distinct exception classes are the constructors of
DecodeErr.  Mutation of the verifier replay set is explicit state passing.
The ValueError messages raised by the sources are mapped to the error
constructors named after the error taxonomy of the specification; each
constructor names in a comment the exact raise site it embeds.
-/

namespace Agbac

/-- A Python Dict[str, str]: association list with unique keys. -/
abbrev StrDict := List (String × String)

/-- Python d.get(key): first-match lookup, None when the key is absent. -/
def dget (d : StrDict) (k : String) : Option String :=
  match d with
  | [] => none
  | (k0, v) :: rest => if k0 = k then some v else dget rest k

/-- Python truthiness of an optional string: None and the empty string are falsy. -/
def truthy : Option String → Bool
  | none => false
  | some s => ! (s == "")

/-- Python (a or b) on optional strings: b when a is falsy. -/
def pyOr (a b : Option String) : Option String :=
  if truthy a then a else b

/-- Python s.startswith(p). -/
def pyStartsWith (s p : String) : Bool :=
  p.data.isPrefixOf s.data

/-- An act claim dictionary (Dict[str, str] holding sub, email, name, ...). -/
abbrev ActDict := StrDict

/-- The Python check (not act or (sub not in act)) on an optional act dict:
None, the empty dict, and a dict without the key sub are all invalid. -/
def actInvalid : Option ActDict → Bool
  | none => true
  | some a => a.isEmpty || (dget a "sub").isNone

/-- Signing algorithm recorded in the JWT header. -/
inductive Alg
  | RS256
  | HS256
  | algNone
deriving DecidableEq, Repr

/-- The payload of an act JWT, as built by
HybridSender.prepare_out_of_session_act and read back by jwt.decode.
jti and act are optional because the verifier accepts arbitrary tokens. -/
structure JwtPayload where
  iss : String
  sub : String
  aud : String
  exp : Int
  iat : Int
  jti : Option String
  act : Option ActDict
deriving DecidableEq, Repr

/-- A signed JWT: its payload, the algorithm of its header, and the private
key identifier under whose matching public key the signature verifies
(none when the signature verifies under no key). -/
structure SignedJwt where
  payload : JwtPayload
  alg : Alg
  sigKey : Option Nat
deriving DecidableEq, Repr

/-- The distinct PyJWT exception classes the source catches separately:
InvalidAlgorithmError (a plain InvalidTokenError subclass),
InvalidSignatureError, ExpiredSignatureError, InvalidAudienceError. -/
inductive DecodeErr
  | invalidAlgorithm
  | invalidSignature
  | expiredSignature
  | invalidAudience
deriving DecidableEq, Repr

/-- jwt.decode(act_jwt, app_public_key, algorithms=[RS256],
audience=expected_audience, options=verify_exp) evaluated at time now.
PyJWT order: the header algorithm must be in the allowed list
(InvalidAlgorithmError otherwise), the signature must verify under the
given key (InvalidSignatureError otherwise), and only then are the payload
claims validated: exp first (ExpiredSignatureError when exp is not in the
future), then aud (InvalidAudienceError unless equal). -/
def jwtDecode (tok : SignedJwt) (pubKey : Nat) (audience : String) (now : Int) :
    Except DecodeErr JwtPayload :=
  if tok.alg ≠ Alg.RS256 then .error .invalidAlgorithm
  else if tok.sigKey ≠ some pubKey then .error .invalidSignature
  else if tok.payload.exp ≤ now then .error .expiredSignature
  else if tok.payload.aud ≠ audience then .error .invalidAudience
  else .ok tok.payload

/-- The verification failures of OutOfSessionTokenRequest, named after the
specification taxonomy; each constructor embeds one ValueError raise site:
expired ("Act JWT expired"), audienceMismatch ("Act JWT invalid audience"),
signatureInvalid ("Act JWT signature invalid"), replayDetected ("Act JWT
replay detected"), malformedClaim ("Act JWT must contain act.sub"),
invalidToken (the generic "Act JWT invalid: ..." handler for any other
jwt.InvalidTokenError). -/
inductive VerifyError
  | signatureInvalid
  | expired
  | audienceMismatch
  | replayDetected
  | malformedClaim
  | invalidToken
deriving DecidableEq, Repr

/-- The mutable state of an OutOfSessionTokenRequest instance: the set
self used_jtis of consumed jti values, embedded as a list. -/
structure VerifierState where
  usedJtis : List String
deriving DecidableEq, Repr

/-- The tail of receive_and_verify_act_jwt after the replay block:
act = decoded.get(act); if not act or (sub not in act) raise
"Act JWT must contain act.sub"; return act. -/
def extractAct (act? : Option ActDict) (st : VerifierState) :
    Except VerifyError ActDict × VerifierState :=
  match act? with
  | none => (.error .malformedClaim, st)
  | some a =>
      if a.isEmpty || (dget a "sub").isNone then (.error .malformedClaim, st)
      else (.ok a, st)

/-- OutOfSessionTokenRequest.receive_and_verify_act_jwt(act_jwt,
expected_audience), evaluated at time now on a verifier whose application
public key is appPublicKey and whose replay set is st.  The pair returned
is (outcome, replay set after the call).  Faithful to the source order:
jwt.decode first (any decode exception leaves the set untouched), then the
replay block (jti = decoded.get(jti); if jti: if jti in used raise replay
else add), then the act extraction. -/
def receive_and_verify_act_jwt (st : VerifierState) (appPublicKey : Nat)
    (tok : SignedJwt) (expectedAudience : String) (now : Int) :
    Except VerifyError ActDict × VerifierState :=
  match jwtDecode tok appPublicKey expectedAudience now with
  | .error .expiredSignature => (.error .expired, st)
  | .error .invalidAudience => (.error .audienceMismatch, st)
  | .error .invalidSignature => (.error .signatureInvalid, st)
  | .error .invalidAlgorithm => (.error .invalidToken, st)
  | .ok decoded =>
      match decoded.jti with
      | some j =>
          if j = "" then extractAct decoded.act st
          else if j ∈ st.usedJtis then (.error .replayDetected, st)
          else extractAct decoded.act ⟨j :: st.usedJtis⟩
      | none => extractAct decoded.act st

/-- The failures of HybridSender.prepare_out_of_session_act; each
constructor embeds one ValueError raise site: signingKeyMissing
("HybridSender not configured for out-of-session"), invalidClaim
("Act must contain sub field"), invalidEndpoint
("Agent endpoint must use HTTPS"). -/
inductive SenderError
  | signingKeyMissing
  | invalidClaim
  | invalidEndpoint
deriving DecidableEq, Repr

/-- A HybridSender instance: the loaded RSA private key identifier, none
when constructed without a key path. -/
structure HybridSender where
  privateKey : Option Nat
deriving DecidableEq, Repr

/-- HybridSender.prepare_out_of_session_act(act, agent_endpoint,
ttl_seconds).  now embeds int(time.time()) and jti embeds
secrets.token_urlsafe(32), both inputs of the call.  Faithful to the
source: key check, then (not act or sub not in act), then (not
agent_endpoint or not agent_endpoint.startswith(https)); no check on
ttl_seconds; payload iss=application sub=application aud=agent_endpoint
exp=now+ttl_seconds iat=now jti act; signed RS256 with the private key. -/
def prepare_out_of_session_act (sender : HybridSender) (act : ActDict)
    (agent_endpoint : String) (ttl_seconds : Int) (now : Int) (jti : String) :
    Except SenderError SignedJwt :=
  match sender.privateKey with
  | none => .error .signingKeyMissing
  | some k =>
      if act.isEmpty || (dget act "sub").isNone then .error .invalidClaim
      else if agent_endpoint = "" || ! pyStartsWith agent_endpoint "https://" then
        .error .invalidEndpoint
      else
        .ok { payload := { iss := "application", sub := "application",
                           aud := agent_endpoint, exp := now + ttl_seconds,
                           iat := now, jti := some jti, act := some act },
              alg := Alg.RS256, sigKey := some k }

/-- Boolean success test on a verification outcome. -/
def vOk : Except VerifyError ActDict → Bool
  | .ok _ => true
  | .error _ => false

/-- The failures of HybridSender.extract_act_from_session; each constructor
embeds one ValueError raise site: notADict ("Session must be a
dictionary", also raised on an empty session by the truthiness check
(not session)), missingEmail ("Session must contain email"). -/
inductive SessionError
  | notADict
  | missingEmail
deriving DecidableEq, Repr

/-- The email fallback chain of extract_act_from_session:
session.get(email) or session.get(user_email) or
session.get(userPrincipalName) or session.get(mail). -/
def emailChain (session : StrDict) : Option String :=
  pyOr (dget session "email")
    (pyOr (dget session "user_email")
      (pyOr (dget session "userPrincipalName") (dget session "mail")))

/-- HybridSender.extract_act_from_session(session).  Faithful to the
source: (not session) check, the email chain with (if not email) raise,
the subject chain session.get(sub) or session.get(user_id) or
session.get(oid) or email, the name chain session.get(name) or
session.get(display_name) or session.get(displayName), and the built act
dict with sub, email and the optional name. -/
def extract_act_from_session (session : StrDict) :
    Except SessionError ActDict :=
  if session.isEmpty then .error .notADict
  else
    let email := emailChain session
    if ! truthy email then .error .missingEmail
    else
      let sub := pyOr (dget session "sub")
        (pyOr (dget session "user_id") (pyOr (dget session "oid") email))
      let name := pyOr (dget session "name")
        (pyOr (dget session "display_name") (dget session "displayName"))
      let act : ActDict := [("sub", sub.getD ""), ("email", email.getD "")]
      .ok (if truthy name then act ++ [("name", name.getD "")] else act)

/-- Boolean success test on a session extraction outcome. -/
def sOk : Except SessionError ActDict → Bool
  | .ok _ => true
  | .error _ => false

/-- The Python exception classes crossing the adapter boundary:
requests.HTTPError(status) raised by response.raise_for_status,
requests.ConnectionError for a network failure, TokenRequestError
(base_adapter.py, with its optional status_code and message), and
ValueError. -/
inductive PyExc
  | httpError (status : Nat)
  | connectionError
  | tokenRequestError (statusCode : Option Nat) (message : String)
  | valueError (message : String)
deriving DecidableEq, Repr

/-- Python e.__class__.__name__ for the embedded exception classes. -/
def pyClassName : PyExc → String
  | .httpError _ => "HTTPError"
  | .connectionError => "ConnectionError"
  | .tokenRequestError _ _ => "TokenRequestError"
  | .valueError _ => "ValueError"

/-- An HTTP response from the identity provider: status code and JSON
body (the token data dictionary). -/
structure HttpResponse where
  status : Nat
  body : StrDict
deriving DecidableEq, Repr

/-- requests.Response.raise_for_status: raises requests.HTTPError exactly
for a 4xx or 5xx status. -/
def raise_for_status (r : HttpResponse) : Except PyExc HttpResponse :=
  if 400 ≤ r.status ∧ r.status < 600 then .error (.httpError r.status)
  else .ok r

/-- Auth0Adapter.request_token (agents/python/adapters/auth0_adapter.py).
net is the outcome of requests.post on the token URL: none embeds a
network failure (requests.ConnectionError), some r the provider response.
Faithful to the source: raise_for_status, then return response.json();
both except blocks log and re-raise the exception UNCHANGED (no
TokenRequestError is ever constructed here). -/
def auth0_request_token (net : Option HttpResponse) (sub : String)
    (act : ActDict) (scope : List String) : Except PyExc StrDict :=
  match net with
  | none => .error .connectionError
  | some r =>
      match raise_for_status r with
      | .error e => .error e
      | .ok r0 => .ok r0.body

/-- InSessionTokenRequest.request_token (code/in_session_token_request.py)
over an abstract adapter function.  Faithful to the source: the input
check (not agent_id or not act or sub not in act or not scope) raising
ValueError, then the adapter call with (except TokenRequestError: raise)
and (except Exception as e: raise TokenRequestError("Unexpected error: "
+ class name)) — note the re-wrap carries NO status code. -/
def in_session_request_token
    (adapter : String → ActDict → List String → Except PyExc StrDict)
    (agent_id : String) (act : ActDict) (scope : List String) :
    Except PyExc StrDict :=
  if agent_id = "" || actInvalid (some act) || scope.isEmpty then
    .error (.valueError "Invalid inputs: agent_id, act.sub, and scope required")
  else
    match adapter agent_id act scope with
    | .ok v => .ok v
    | .error (.tokenRequestError sc msg) => .error (.tokenRequestError sc msg)
    | .error e => .error (.tokenRequestError none ("Unexpected error: " ++ pyClassName e))

/-- The fields stored by a successfully constructed BaseAdapter
(code/python/base_adapter.py). -/
structure BaseAdapterState where
  token_url : String
  client_id : String
  client_secret : String
  audience : Option String
deriving DecidableEq, Repr

/-- BaseAdapter.__init__(config) (code/python/base_adapter.py).  Faithful
to the source: missing_fields = fields of token_url, client_id,
client_secret absent from config, raising ValueError("Missing required
configuration: ...") when non-empty; then ValueError("Token URL must use
HTTPS (https://)") unless token_url starts with https; otherwise the
fields are stored, with audience = config.get(audience). -/
def base_adapter_init (config : StrDict) : Except PyExc BaseAdapterState :=
  let missing := ["token_url", "client_id", "client_secret"].filter
    (fun f => (dget config f).isNone)
  if ! missing.isEmpty then
    .error (.valueError ("Missing required configuration: " ++ String.intercalate ", " missing))
  else
    let token_url := (dget config "token_url").getD ""
    if ! pyStartsWith token_url "https://" then
      .error (.valueError "Token URL must use HTTPS (https://)")
    else
      .ok { token_url := token_url,
            client_id := (dget config "client_id").getD "",
            client_secret := (dget config "client_secret").getD "",
            audience := dget config "audience" }

/-- An EntraIDAdapter instance
(agents/python/adapters/entraid_adapter.py). -/
structure EntraIDAdapter where
  token_url : String
  client_id : String
  client_secret : String
  tenant_id : String
deriving DecidableEq, Repr

/-- EntraIDAdapter.__init__(token_url, client_id, client_secret,
tenant_id).  Faithful to the source: the four arguments are stored
directly; BaseAdapter.__init__ is NOT called and no validation of any
kind is performed, so construction is total and never fails. -/
def entraid_adapter_init (token_url client_id client_secret tenant_id : String) :
    EntraIDAdapter :=
  { token_url := token_url, client_id := client_id,
    client_secret := client_secret, tenant_id := tenant_id }

/-- A concrete act JWT carrying the empty string as its jti, used to probe
the replay block (Python truthiness skips replay tracking for it). -/
def tokEmptyJti : SignedJwt :=
  { payload := { iss := "application", sub := "application",
                 aud := "https://agent.example.com", exp := 100, iat := 40,
                 jti := some "", act := some [("sub", "alice")] },
    alg := Alg.RS256, sigKey := some 1 }

/-- A concrete token whose header algorithm is the symmetric HS256 (the
algorithm-confusion probe): its signature does not verify under the
configured RS256 public key. -/
def tokHS : SignedJwt :=
  { payload := { iss := "application", sub := "application",
                 aud := "https://agent.example.com", exp := 100, iat := 40,
                 jti := some "n-hs", act := some [("sub", "alice")] },
    alg := Alg.HS256, sigKey := some 1 }

/-- A concrete well-signed token whose jti is fresh and non-empty, used to
witness the replay theorems. -/
def tokFresh : SignedJwt :=
  { payload := { iss := "application", sub := "application",
                 aud := "https://agent.example.com", exp := 100, iat := 40,
                 jti := some "nonce-1", act := some [("sub", "alice")] },
    alg := Alg.RS256, sigKey := some 1 }

/-- A concrete well-signed, unexpired, audience-matching token whose act
claim lacks the sub key, used to witness the store-mutation-on-error
behaviour. -/
def tokNoSub : SignedJwt :=
  { payload := { iss := "application", sub := "application",
                 aud := "https://agent.example.com", exp := 100, iat := 40,
                 jti := some "nonce-2", act := some [("email", "alice@corp.example")] },
    alg := Alg.RS256, sigKey := some 1 }

/-- A concrete well-signed, unexpired, audience-matching token whose act
claim lacks the sub key and whose jti claim is the empty string: Python
truthiness skips the replay block for it entirely. -/
def tokNoSubEmptyJti : SignedJwt :=
  { payload := { iss := "application", sub := "application",
                 aud := "https://agent.example.com", exp := 100, iat := 40,
                 jti := some "", act := some [("email", "alice@corp.example")] },
    alg := Alg.RS256, sigKey := some 1 }

/-! Helper lemmas shared by the claim theorems. -/

/-- A dict in which the key sub is bound is not empty. -/
theorem dget_some_not_isEmpty {d : StrDict} {k : String} {v : String}
    (h : dget d k = some v) : d.isEmpty = false := by
  cases d with
  | nil => simp [dget] at h
  | cons p rest => rfl

/-- A string with the prefix https is not empty. -/
theorem pyStartsWith_https_ne_empty {s : String}
    (h : pyStartsWith s "https://" = true) : s ≠ "" := by
  intro he
  rw [he] at h
  exact absurd h (by decide)

/-- Claim C1: signing an act claim whose sub is non-empty with
prepare_out_of_session_act for an HTTPS audience and verifying it with
receive_and_verify_act_jwt at the same audience, before expiry and with a
jti not previously consumed, succeeds and returns the original act. -/
theorem C1_round_trip (k : Nat) (act : ActDict) (s : String)
    (agent_endpoint : String) (ttl now t : Int) (jti : String)
    (st : VerifierState)
    (hsub : dget act "sub" = some s) (hs : s ≠ "")
    (hhttps : pyStartsWith agent_endpoint "https://" = true)
    (hfresh : jti ∉ st.usedJtis)
    (ht : t < now + ttl) :
    (prepare_out_of_session_act ⟨some k⟩ act agent_endpoint ttl now jti).map
      (fun tok => (receive_and_verify_act_jwt st k tok agent_endpoint t).1)
      = .ok (.ok act) := by
  have hempty : act.isEmpty = false := dget_some_not_isEmpty hsub
  have hnone : (dget act "sub").isNone = false := by rw [hsub]; rfl
  have hne : agent_endpoint ≠ "" := pyStartsWith_https_ne_empty hhttps
  have hexp : ¬ (now + ttl ≤ t) := not_le.mpr ht
  simp only [prepare_out_of_session_act, hempty, hnone, Bool.or_self,
    Bool.false_eq_true, if_false, hhttps, Bool.not_true, Bool.or_false,
    decide_eq_true_eq, if_neg hne, Except.map]
  simp only [receive_and_verify_act_jwt, jwtDecode, if_neg hexp]
  simp only [ne_eq, not_true_eq_false, if_false, reduceIte, if_neg hexp]
  by_cases hj : jti = ""
  · simp [hj, extractAct, hempty, hnone]
  · simp [hj, if_neg hfresh, extractAct, hempty, hnone]

/-- Witness for claim C1 at concrete inputs: key 1, act of alice, the
HTTPS agent endpoint, ttl 60 signed at time 1000, verified at 1030. -/
theorem C1_round_trip_witness :
    (prepare_out_of_session_act ⟨some 1⟩
        [("sub", "alice"), ("email", "alice@corp.example")]
        "https://agent.example.com" 60 1000 "nonce-w1").map
      (fun tok => (receive_and_verify_act_jwt ⟨[]⟩ 1 tok
        "https://agent.example.com" 1030).1)
      = .ok (.ok [("sub", "alice"), ("email", "alice@corp.example")]) :=
  C1_round_trip 1 [("sub", "alice"), ("email", "alice@corp.example")] "alice"
    "https://agent.example.com" 60 1000 1030 "nonce-w1" ⟨[]⟩
    (by rfl) (by decide) (by decide) (by decide) (by decide)

/-- Claim C4: a correctly signed assertion verified at a time strictly
after its exp fails with Expired, even when the audience matches; the
replay set is untouched. -/
theorem C4_expired (st : VerifierState) (pk : Nat) (tok : SignedJwt)
    (expectedAudience : String) (t : Int)
    (halg : tok.alg = Alg.RS256) (hsig : tok.sigKey = some pk)
    (haud : tok.payload.aud = expectedAudience)
    (ht : tok.payload.exp < t) :
    receive_and_verify_act_jwt st pk tok expectedAudience t
      = (.error .expired, st) := by
  have hle : tok.payload.exp ≤ t := le_of_lt ht
  simp [receive_and_verify_act_jwt, jwtDecode, halg, hsig, hle]

/-- Witness for claim C4: the well-signed token with exp 100 verified at
time 200 against its own audience. -/
theorem C4_expired_witness :
    receive_and_verify_act_jwt ⟨[]⟩ 1 tokFresh "https://agent.example.com" 200
      = (.error .expired, ⟨[]⟩) :=
  C4_expired ⟨[]⟩ 1 tokFresh "https://agent.example.com" 200
    (by rfl) (by rfl) (by rfl) (by decide)

/-- Claim C5: a correctly signed, unexpired assertion verified against an
expected audience different from the aud it was issued for fails with
AudienceMismatch; the replay set is untouched. -/
theorem C5_audience_mismatch (st : VerifierState) (pk : Nat)
    (tok : SignedJwt) (expectedAudience : String) (t : Int)
    (halg : tok.alg = Alg.RS256) (hsig : tok.sigKey = some pk)
    (ht : t < tok.payload.exp)
    (haud : tok.payload.aud ≠ expectedAudience) :
    receive_and_verify_act_jwt st pk tok expectedAudience t
      = (.error .audienceMismatch, st) := by
  have hexp : ¬ (tok.payload.exp ≤ t) := not_le.mpr ht
  simp [receive_and_verify_act_jwt, jwtDecode, halg, hsig, hexp, haud]

/-- Witness for claim C5: the well-signed unexpired token verified
against a different audience. -/
theorem C5_audience_mismatch_witness :
    receive_and_verify_act_jwt ⟨[]⟩ 1 tokFresh "https://other.example.com" 50
      = (.error .audienceMismatch, ⟨[]⟩) :=
  C5_audience_mismatch ⟨[]⟩ 1 tokFresh "https://other.example.com" 50
    (by rfl) (by rfl) (by decide) (by decide)

/-- Inversion for jwtDecode: a successful decode pins down the algorithm,
the signing key, the freshness of exp and the audience, and returns the
payload of the token unchanged. -/
theorem jwtDecode_ok_facts {tok : SignedJwt} {pk : Nat} {aud : String}
    {t : Int} {d : JwtPayload} (h : jwtDecode tok pk aud t = .ok d) :
    d = tok.payload ∧ tok.alg = Alg.RS256 ∧ tok.sigKey = some pk ∧
    t < tok.payload.exp ∧ tok.payload.aud = aud := by
  by_cases h1 : tok.alg = Alg.RS256
  · by_cases h2 : tok.sigKey = some pk
    · by_cases h3 : tok.payload.exp ≤ t
      · simp [jwtDecode, h1, h2, h3] at h
      · by_cases h4 : tok.payload.aud = aud
        · simp [jwtDecode, h1, h2, h3, h4] at h
          exact ⟨h.symm, h1, h2, not_le.mp h3, h4⟩
        · simp [jwtDecode, h1, h2, h3, h4] at h
    · simp [jwtDecode, h1, h2] at h
  · simp [jwtDecode, h1] at h

/-- The act extraction step never touches the replay set it is given. -/
theorem extractAct_snd (act? : Option ActDict) (st : VerifierState) :
    (extractAct act? st).2 = st := by
  cases act? with
  | none => rfl
  | some a =>
      simp only [extractAct]
      split <;> rfl

/-- Inversion for a successful verification of a token carrying a
non-empty jti j: the token decodes (algorithm, key, expiry, audience all
in order), j was not yet consumed, and the returned replay set is the
starting one with j added. -/
theorem receive_ok_facts {st st2 : VerifierState} {pk : Nat}
    {tok : SignedJwt} {aud : String} {t : Int} {j : String} {a : ActDict}
    (hjti : tok.payload.jti = some j) (hne : j ≠ "")
    (h : receive_and_verify_act_jwt st pk tok aud t = (.ok a, st2)) :
    tok.alg = Alg.RS256 ∧ tok.sigKey = some pk ∧ t < tok.payload.exp ∧
    tok.payload.aud = aud ∧ j ∉ st.usedJtis ∧
    st2 = ⟨j :: st.usedJtis⟩ := by
  unfold receive_and_verify_act_jwt at h
  cases hdec : jwtDecode tok pk aud t with
  | error e =>
      rw [hdec] at h
      cases e <;> simp at h
  | ok d =>
      obtain ⟨hd, h1, h2, h3, h4⟩ := jwtDecode_ok_facts hdec
      subst hd
      rw [hdec] at h
      simp only [hjti] at h
      rw [if_neg hne] at h
      by_cases hmem : j ∈ st.usedJtis
      · rw [if_pos hmem] at h
        simp at h
      · rw [if_neg hmem] at h
        have hsnd := extractAct_snd tok.payload.act ⟨j :: st.usedJtis⟩
        rw [h] at hsnd
        exact ⟨h1, h2, h3, h4, hmem, hsnd⟩

/-- Claim C2 (amended): once an assertion carrying a non-empty jti has
been successfully consumed, a second call with the identical assertion on
the resulting verifier state never succeeds; when made before the
expiry of the assertion it fails with ReplayDetected. -/
theorem C2_replay_protect (st st2 : VerifierState) (pk : Nat)
    (tok : SignedJwt) (aud : String) (t1 t2 : Int) (j : String) (a : ActDict)
    (hjti : tok.payload.jti = some j) (hne : j ≠ "")
    (h1 : receive_and_verify_act_jwt st pk tok aud t1 = (.ok a, st2)) :
    vOk (receive_and_verify_act_jwt st2 pk tok aud t2).1 = false ∧
    (t2 < tok.payload.exp →
      (receive_and_verify_act_jwt st2 pk tok aud t2).1
        = .error .replayDetected) := by
  obtain ⟨halg, hsig, ht1, haud, hfresh, hst⟩ := receive_ok_facts hjti hne h1
  subst hst
  have hmem : j ∈ (⟨j :: st.usedJtis⟩ : VerifierState).usedJtis :=
    List.mem_cons_self _ _
  constructor
  · by_cases h3 : tok.payload.exp ≤ t2
    · simp [receive_and_verify_act_jwt, jwtDecode, halg, hsig, h3, vOk]
    · simp [receive_and_verify_act_jwt, jwtDecode, halg, hsig, h3, haud,
        hjti, hne, hmem, vOk]
  · intro ht2
    have h3 : ¬ (tok.payload.exp ≤ t2) := not_le.mpr ht2
    simp [receive_and_verify_act_jwt, jwtDecode, halg, hsig, h3, haud,
      hjti, hne, hmem]

/-- Witness for claim C2 (amended): the well-signed fresh token consumed
at time 10 from the empty replay set; the second call at time 20 on the
resulting state is rejected as a replay. -/
theorem C2_replay_protect_witness :
    vOk (receive_and_verify_act_jwt ⟨["nonce-1"]⟩ 1 tokFresh
      "https://agent.example.com" 20).1 = false ∧
    ((20 : Int) < tokFresh.payload.exp →
      (receive_and_verify_act_jwt ⟨["nonce-1"]⟩ 1 tokFresh
        "https://agent.example.com" 20).1 = .error .replayDetected) :=
  C2_replay_protect ⟨[]⟩ ⟨["nonce-1"]⟩ 1 tokFresh "https://agent.example.com"
    10 20 "nonce-1" [("sub", "alice")] (by rfl) (by decide) (by rfl)

/-- Counterexample to claim C2 as stated: an assertion carrying the jti
claim with the empty string as its value is successfully consumed twice in
a row from the same verifier; the set self used_jtis never records it,
because the source guards the replay block with Python truthiness of the
jti rather than its presence. -/
theorem C2_counterexample :
    (receive_and_verify_act_jwt ⟨[]⟩ 1 tokEmptyJti
      "https://agent.example.com" 50).1 = .ok [("sub", "alice")] ∧
    (receive_and_verify_act_jwt
      (receive_and_verify_act_jwt ⟨[]⟩ 1 tokEmptyJti
        "https://agent.example.com" 50).2
      1 tokEmptyJti "https://agent.example.com" 50).1
      = .ok [("sub", "alice")] :=
  ⟨rfl, rfl⟩

/-- Claim C3 (amended): an assertion whose signature does not verify
under the configured application public key is rejected before any
payload claim is acted upon: the replay set is left unchanged and the
outcome is SignatureInvalid when the header algorithm is RS256 (wrong
key) and the generic InvalidToken error otherwise (PyJWT raises
InvalidAlgorithmError for a disallowed algorithm, caught by the generic
InvalidTokenError handler); no Expired, AudienceMismatch or
ReplayDetected outcome is ever produced from the untrusted payload. -/
theorem C3_unverified_signature (st : VerifierState) (pk : Nat)
    (tok : SignedJwt) (aud : String) (t : Int)
    (hbad : tok.alg ≠ Alg.RS256 ∨ tok.sigKey ≠ some pk) :
    (receive_and_verify_act_jwt st pk tok aud t).2 = st ∧
    (receive_and_verify_act_jwt st pk tok aud t).1 =
      (if tok.alg = Alg.RS256 then .error .signatureInvalid
       else .error .invalidToken) := by
  by_cases h1 : tok.alg = Alg.RS256
  · have h2 : tok.sigKey ≠ some pk := by
      rcases hbad with hb | hb
      · exact absurd h1 hb
      · exact hb
    simp [receive_and_verify_act_jwt, jwtDecode, h1, h2]
  · simp [receive_and_verify_act_jwt, jwtDecode, h1]

/-- Witness for claim C3 (amended): the HS256 algorithm-confusion token
is rejected with the generic InvalidToken error and the replay set stays
empty. -/
theorem C3_unverified_signature_witness :
    (receive_and_verify_act_jwt ⟨[]⟩ 1 tokHS
      "https://agent.example.com" 50).2 = ⟨[]⟩ ∧
    (receive_and_verify_act_jwt ⟨[]⟩ 1 tokHS
      "https://agent.example.com" 50).1 =
      (if tokHS.alg = Alg.RS256 then .error .signatureInvalid
       else .error .invalidToken) :=
  C3_unverified_signature ⟨[]⟩ 1 tokHS "https://agent.example.com" 50
    (Or.inl (by decide))

/-- Counterexample to claim C3 as stated: a token using the non-RS256
algorithm HS256 is rejected with the generic InvalidToken outcome (the
source catches the PyJWT InvalidAlgorithmError only in the final generic
InvalidTokenError handler, whose message is Act JWT invalid), not with
SignatureInvalid as the claim requires for every unverifiable token. -/
theorem C3_counterexample :
    (receive_and_verify_act_jwt ⟨[]⟩ 1 tokHS
      "https://agent.example.com" 50).1 = .error .invalidToken ∧
    VerifyError.invalidToken ≠ VerifyError.signatureInvalid :=
  ⟨rfl, by decide⟩

/-- Claim C6 (amended): with a configured signing key and an act
containing sub, prepare_out_of_session_act fails (with the
invalid-endpoint error) exactly when the target audience does not start
with https; ttl_seconds is never validated, and on success the payload
satisfies exp = iat + ttl_seconds, so exp > iat holds only when
ttl_seconds > 0. -/
theorem C6_endpoint_validation (k : Nat) (act : ActDict) (s : String)
    (agent_endpoint : String) (ttl now : Int) (jti : String)
    (hsub : dget act "sub" = some s) :
    prepare_out_of_session_act ⟨some k⟩ act agent_endpoint ttl now jti =
      (if pyStartsWith agent_endpoint "https://" = true then
        .ok { payload := { iss := "application", sub := "application",
                           aud := agent_endpoint, exp := now + ttl,
                           iat := now, jti := some jti, act := some act },
              alg := Alg.RS256, sigKey := some k }
       else .error .invalidEndpoint) := by
  have hempty : act.isEmpty = false := dget_some_not_isEmpty hsub
  have hnone : (dget act "sub").isNone = false := by rw [hsub]; rfl
  by_cases hh : pyStartsWith agent_endpoint "https://" = true
  · have hne : agent_endpoint ≠ "" := pyStartsWith_https_ne_empty hh
    simp [prepare_out_of_session_act, hempty, hnone, hh, hne]
  · simp [prepare_out_of_session_act, hempty, hnone, hh]

/-- Witness for claim C6 (amended): a plain-HTTP endpoint is rejected
with the invalid-endpoint error. -/
theorem C6_endpoint_validation_witness :
    prepare_out_of_session_act ⟨some 1⟩ [("sub", "alice")]
      "http://agent.example.com" 60 1000 "nonce-w6" =
      (if pyStartsWith "http://agent.example.com" "https://" = true then
        .ok { payload := { iss := "application", sub := "application",
                           aud := "http://agent.example.com", exp := 1060,
                           iat := 1000, jti := some "nonce-w6",
                           act := some [("sub", "alice")] },
              alg := Alg.RS256, sigKey := some 1 }
       else .error .invalidEndpoint) :=
  C6_endpoint_validation 1 [("sub", "alice")] "alice"
    "http://agent.example.com" 60 1000 "nonce-w6" (by rfl)

/-- Counterexample to claim C6 as stated: ttl_seconds = 0 is accepted
(the source never validates ttl_seconds), the call succeeds instead of
failing with InvalidAssertionRequest, and the produced payload has
exp = iat = 1000, violating exp > iat. -/
theorem C6_counterexample :
    prepare_out_of_session_act ⟨some 1⟩ [("sub", "alice")]
      "https://agent.example.com" 0 1000 "nonce-c6" =
      .ok { payload := { iss := "application", sub := "application",
                         aud := "https://agent.example.com", exp := 1000,
                         iat := 1000, jti := some "nonce-c6",
                         act := some [("sub", "alice")] },
            alg := Alg.RS256, sigKey := some 1 } :=
  rfl

/-- Claim C9 (amended): receive_and_verify_act_jwt consumes the jti
before validating the embedded act.  For a well-signed, unexpired,
audience-matching token carrying a fresh NON-EMPTY jti whose act claim is
missing or lacks sub, the first call fails with MalformedClaim and still
adds the jti to the replay set, so the identical second call fails with
ReplayDetected.  The non-empty restriction is forced: a token whose jti
claim is the empty string skips the replay block by Python truthiness,
consumes nothing, and fails MalformedClaim on every call. -/
theorem C9_store_mutated_on_malformed (st : VerifierState) (pk : Nat)
    (tok : SignedJwt) (aud : String) (t : Int) (j : String)
    (halg : tok.alg = Alg.RS256) (hsig : tok.sigKey = some pk)
    (ht : t < tok.payload.exp) (haud : tok.payload.aud = aud)
    (hjti : tok.payload.jti = some j) (hne : j ≠ "")
    (hfresh : j ∉ st.usedJtis)
    (hact : actInvalid tok.payload.act = true) :
    receive_and_verify_act_jwt st pk tok aud t
      = (.error .malformedClaim, ⟨j :: st.usedJtis⟩) ∧
    receive_and_verify_act_jwt ⟨j :: st.usedJtis⟩ pk tok aud t
      = (.error .replayDetected, ⟨j :: st.usedJtis⟩) := by
  have hexp : ¬ (tok.payload.exp ≤ t) := not_le.mpr ht
  have hmem : j ∈ (⟨j :: st.usedJtis⟩ : VerifierState).usedJtis :=
    List.mem_cons_self _ _
  constructor
  · cases hao : tok.payload.act with
    | none =>
        simp [receive_and_verify_act_jwt, jwtDecode, halg, hsig, hexp, haud,
          hjti, hne, hfresh, extractAct, hao]
    | some a =>
        rw [hao] at hact
        simp only [actInvalid] at hact
        simp [receive_and_verify_act_jwt, jwtDecode, halg, hsig, hexp, haud,
          hjti, hne, hfresh, extractAct, hao, hact]
  · simp [receive_and_verify_act_jwt, jwtDecode, halg, hsig, hexp, haud,
      hjti, hne, hmem]

/-- Witness for claim C9: the well-signed token whose act lacks sub is
rejected as malformed but its jti nonce-2 is consumed; the identical
second call is rejected as a replay. -/
theorem C9_store_mutated_on_malformed_witness :
    receive_and_verify_act_jwt ⟨[]⟩ 1 tokNoSub
      "https://agent.example.com" 50
      = (.error .malformedClaim, ⟨["nonce-2"]⟩) ∧
    receive_and_verify_act_jwt ⟨["nonce-2"]⟩ 1 tokNoSub
      "https://agent.example.com" 50
      = (.error .replayDetected, ⟨["nonce-2"]⟩) :=
  C9_store_mutated_on_malformed ⟨[]⟩ 1 tokNoSub "https://agent.example.com"
    50 "nonce-2" (by rfl) (by rfl) (by decide) (by rfl) (by rfl)
    (by decide) (by decide) (by rfl)

/-- Counterexample to claim C9 as stated: a well-signed, unexpired,
audience-matching assertion that carries a jti (with the empty string as
its value) and whose act lacks sub is NOT consumed — the replay set stays
empty because the source guards the replay block with Python truthiness
of the jti — so the first call fails MalformedClaim without adding the
jti and the identical second call also fails MalformedClaim, not
ReplayDetected as the claim requires. -/
theorem C9_counterexample :
    tokNoSubEmptyJti.payload.jti = some "" ∧
    receive_and_verify_act_jwt ⟨[]⟩ 1 tokNoSubEmptyJti
      "https://agent.example.com" 50
      = (.error .malformedClaim, ⟨[]⟩) ∧
    (receive_and_verify_act_jwt
      (receive_and_verify_act_jwt ⟨[]⟩ 1 tokNoSubEmptyJti
        "https://agent.example.com" 50).2
      1 tokNoSubEmptyJti "https://agent.example.com" 50).1
      = .error .malformedClaim ∧
    VerifyError.malformedClaim ≠ VerifyError.replayDetected :=
  ⟨rfl, rfl, rfl, by decide⟩

/-- Claim C7 (code bug evaluation): on a 403 provider response the
Auth0 adapter surfaces the raw requests.HTTPError unchanged (an
unqualified exception, not a TokenRequestError), and the in-session
orchestrator wrapping it produces a TokenRequestError whose status_code
is None and whose message names only the exception class — the provider
status 403 is never attached, contradicting the documented adapter
contract. -/
theorem C7_adapter_error_divergence :
    auth0_request_token (some ⟨403, []⟩) "agent-1"
      [("sub", "user:alice@example.com")] ["read"]
      = .error (.httpError 403) ∧
    in_session_request_token
      (fun s a sc => auth0_request_token (some ⟨403, []⟩) s a sc)
      "agent-1" [("sub", "user:alice@example.com")] ["read"]
      = .error (.tokenRequestError none "Unexpected error: HTTPError") :=
  ⟨rfl, rfl⟩

/-- Claim C8 (code bug evaluation): EntraIDAdapter construction performs
no validation at all — it succeeds on a plain-HTTP token URL and stores
it unchanged — while the BaseAdapter initializer of the hardened tree,
which the claim describes, rejects the very same configuration with the
HTTPS error. -/
theorem C8_construction_validation_divergence :
    (entraid_adapter_init "http://login.contoso.example/token"
      "agent-client" "s3cret" "tenant-1").token_url
      = "http://login.contoso.example/token" ∧
    pyStartsWith "http://login.contoso.example/token" "https://" = false ∧
    base_adapter_init
      [("token_url", "http://login.contoso.example/token"),
       ("client_id", "agent-client"), ("client_secret", "s3cret")]
      = .error (.valueError "Token URL must use HTTPS (https://)") :=
  ⟨rfl, by decide, rfl⟩

/-- Claim C10 (amended): for a non-empty session, extract_act_from_session
succeeds exactly when the email fallback chain (email, user_email,
userPrincipalName, mail) yields a truthy (non-empty) value — subject
fields alone never make it succeed nor fail — and when additionally none
of the subject fields sub, user_id, oid is present, the returned act has
its sub equal to the extracted email. -/
theorem C10_email_fallback (session : StrDict) (hne : session ≠ []) :
    sOk (extract_act_from_session session) = truthy (emailChain session) ∧
    (dget session "sub" = none → dget session "user_id" = none →
     dget session "oid" = none →
     (extract_act_from_session session).map (fun a => dget a "sub")
       = (if truthy (emailChain session) then Except.ok (emailChain session)
          else .error .missingEmail)) := by
  have hie : session.isEmpty = false := by
    cases session with
    | nil => exact absurd rfl hne
    | cons p rest => rfl
  constructor
  · by_cases he : truthy (emailChain session) = true
    · simp [extract_act_from_session, hie, he, sOk]
    · simp only [Bool.not_eq_true] at he
      simp [extract_act_from_session, hie, he, sOk]
  · intro h1 h2 h3
    cases ho : emailChain session with
    | none => simp [extract_act_from_session, hie, ho, truthy, Except.map]
    | some e =>
        by_cases hee : e = ""
        · simp [extract_act_from_session, hie, ho, hee, truthy, Except.map]
        · simp [extract_act_from_session, hie, ho, hee, truthy, pyOr,
            h1, h2, h3, dget, Except.map]
          repeat' split
          all_goals simp [Except.map, dget]

/-- Witness for claim C10 (amended): a session carrying only
userPrincipalName succeeds and its act sub is that email. -/
theorem C10_email_fallback_witness :
    sOk (extract_act_from_session [("userPrincipalName", "alice@corp.example")])
      = truthy (emailChain [("userPrincipalName", "alice@corp.example")]) ∧
    (extract_act_from_session [("userPrincipalName", "alice@corp.example")]).map
        (fun a => dget a "sub")
      = (if truthy (emailChain [("userPrincipalName", "alice@corp.example")])
         then Except.ok (emailChain [("userPrincipalName", "alice@corp.example")])
         else .error .missingEmail) :=
  ⟨(C10_email_fallback [("userPrincipalName", "alice@corp.example")] (by decide)).1,
   (C10_email_fallback [("userPrincipalName", "alice@corp.example")] (by decide)).2
     (by rfl) (by rfl) (by rfl)⟩

/-- Counterexample to claim C10 as stated: a session containing the
email field with the empty string as its value (and none of the subject
fields) makes extract_act_from_session fail with the missing-email error,
although an email-equivalent field is present — the source tests Python
truthiness of the value, not presence of the field. -/
theorem C10_counterexample :
    dget [("email", "")] "email" = some "" ∧
    dget [("email", "")] "sub" = none ∧
    dget [("email", "")] "user_id" = none ∧
    dget [("email", "")] "oid" = none ∧
    extract_act_from_session [("email", "")] = .error .missingEmail :=
  ⟨rfl, rfl, rfl, rfl, rfl⟩

end Agbac
